import Mathlib

set_option maxRecDepth 4000

/- Shallow embedding of the label-service repository (src/server.js and the
   near-duplicate variant files src/unnamed/part_000 .. part_005).
   JavaScript strings are modelled as Lean strings, byte buffers as lists of
   natural numbers, and thrown exceptions as Except.error values. -/

/-! ## JavaScript string primitives -/

/-- Character test matching the regular expression class \s (ASCII range) as
used by the whitespace-removal step in generateBarcode. -/
def isJsSpace (c : Char) : Bool :=
  c.toNat == 32 || c.toNat == 9 || c.toNat == 10 || c.toNat == 13 ||
  c.toNat == 11 || c.toNat == 12

/-- ASCII digit test matching the regular expression class \d. -/
def isDigitChar (c : Char) : Bool :=
  48 ≤ c.toNat && c.toNat ≤ 57

/-- The JavaScript test of the regular expression /^\d+$/ on a string:
nonempty and consisting of ASCII digits only. -/
def allDigitsB (s : String) : Bool :=
  !s.data.isEmpty && s.data.all isDigitChar

/-- JavaScript String(data).replace of /\s/g by the empty string: removes
every whitespace character from the string. -/
def stripJsSpaces (s : String) : String :=
  String.mk (s.data.filter (fun c => !isJsSpace c))

/-! ## Code Asset Generator: EAN-13 barcode path (src/server.js lines 28-51) -/

/-- The branch structure of src/server.js lines 32-37 applied to the already
whitespace-stripped string: a 13-digit numeric string is truncated to its
first 12 digits; any other string that is not 12 or 13 numeric digits is
replaced by the fixed placeholder 123456789012. -/
def normalizeAux (b : String) : String :=
  if b.data.length = 13 ∧ allDigitsB b = true then String.mk (b.data.take 12)
  else if b.data.length < 12 ∨ 13 < b.data.length ∨ ¬ allDigitsB b = true then
    "123456789012"
  else b

/-- src/server.js lines 30-37 (identical in src/unnamed/part_002): input
normalization inside generateBarcode. Whitespace is removed first, then the
truncation or placeholder substitution of normalizeAux is applied. -/
def normalizeBarcodeData (data : Option String) : String :=
  normalizeAux (stripJsSpaces (data.getD ""))

/-- Digit values of a numeric string. -/
def digitsOf (s : String) : List Nat :=
  s.data.map (fun c => c.toNat - 48)

/-- Alternating weighted sum used by the EAN-13 check digit (weights 1 and 3,
starting with 1 when the flag is false). -/
def ean13WeightedSum : List Nat → Bool → Nat
  | [], _ => 0
  | d :: rest, w3 => (if w3 then 3 * d else d) + ean13WeightedSum rest (!w3)

/-- The EAN-13 check digit recomputed from the first 12 digit values. -/
def ean13Checksum (ds : List Nat) : Nat :=
  (10 - ean13WeightedSum ds false % 10) % 10

/-- Modelled from the spec: the external EAN-13 encoder (the JsBarcode library,
a black box per the spec). A 12-digit numeric payload is encoded with the
check digit recomputed and appended; a 13-digit numeric payload must already
carry a correct check digit; anything else is rejected. The returned value is
the digit sequence represented by the bars. -/
def jsBarcodeEan13 (payload : String) : Except String (List Nat) :=
  if payload.data.length = 12 ∧ allDigitsB payload = true then
    Except.ok (digitsOf payload ++ [ean13Checksum (digitsOf payload)])
  else if payload.data.length = 13 ∧ allDigitsB payload = true ∧
      (digitsOf payload).getLast? =
        some (ean13Checksum (digitsOf (String.mk (payload.data.take 12)))) then
    Except.ok (digitsOf payload)
  else
    Except.error "is not a valid input"

/-- src/server.js generateBarcode (lines 28-51): normalize the input, feed it
to the EAN-13 encoder, and wrap any encoder failure in a tagged error. -/
def generateBarcode (data : Option String) : Except String (List Nat) :=
  match jsBarcodeEan13 (normalizeBarcodeData data) with
  | Except.ok bars => Except.ok bars
  | Except.error m => Except.error ("Barcode generation failed: " ++ m)

/-- The digit sequence drawn as bars for a given product barcode; defaults to
the empty list in the (provably unreachable) encoder-failure case. -/
def barsFor (pb : Option String) : List Nat :=
  match generateBarcode pb with
  | Except.ok bars => bars
  | Except.error _ => []

/-- src/server.js createYandexSticker lines 189-193: the human-readable number
printed below the bars is the original product barcode when it is a nonempty
numeric string of length at least 12, and the fixed text 1234567890128
otherwise. -/
def displayedBarcodeYandex : Option String → String
  | some s =>
      if s ≠ "" ∧ 12 ≤ s.data.length ∧ s.data.all isDigitChar = true then s
      else "1234567890128"
  | none => "1234567890128"

/-! ## Data model: order and product records -/

/-- JavaScript truthiness fallback for an optional string field: the value
when present and nonempty, the default otherwise. -/
def jsOr (o : Option String) (dflt : String) : String :=
  match o with
  | some s => if s = "" then dflt else s
  | none => dflt

/-- A product entry of the request body. -/
structure ProductJs where
  product_barcode : Option String
  product_code : Option String
  quantity : Option Int
deriving DecidableEq

/-- The default product record used only to state indexed list access. -/
def dfltProduct : ProductJs :=
  { product_barcode := none, product_code := none, quantity := none }

/-- The order record of the request body. -/
structure OrderJs where
  order_id : String
  marketplace : Option String
  products : Option (List ProductJs)
  product_barcode : Option String
  product_code : Option String
deriving DecidableEq

/-- The per-product data object assembled inside createCompleteLabelPack. -/
structure ProductData where
  order_id : String
  product_barcode : Option String
  product_code : Option String
deriving DecidableEq

/-! ## Sticker page contents -/

/-- The kind of machine-readable code drawn on a sticker. -/
inductive CodeKind where
  | qr
  | barcode
deriving DecidableEq

/-- Visual content of one rendered sticker page in src/server.js: the uzum
layout (createUzumSticker, lines 73-144) draws one QR code with sku text,
printed number and brand text; the yandex layout (createYandexSticker, lines
146-218) draws one 1-D barcode with sku text, printed number and brand
text. -/
inductive StickerContent where
  | uzum (qrPayload sku displayed : String)
  | yandex (sku : String) (bars : List Nat) (displayed : String)
deriving DecidableEq

/-- The machine-readable codes drawn by a sticker layout. -/
def codeKinds : StickerContent → List CodeKind
  | StickerContent.uzum _ _ _ => [CodeKind.qr]
  | StickerContent.yandex _ _ _ => [CodeKind.barcode]

/-- src/server.js createUzumSticker: QR payload and printed number fall back
to 2000000099064, the sku text to SKU-TEST-001. -/
def uzumStickerContent (pd : ProductData) : StickerContent :=
  StickerContent.uzum (jsOr pd.product_barcode "2000000099064")
    (jsOr pd.product_code "SKU-TEST-001")
    (jsOr pd.product_barcode "2000000099064")

/-- src/server.js createYandexSticker: bars from generateBarcode, printed
number from the displayed-barcode rule, sku fallback SKU-TEST-001. -/
def yandexStickerContent (pd : ProductData) : StickerContent :=
  StickerContent.yandex (jsOr pd.product_code "SKU-TEST-001")
    (barsFor pd.product_barcode)
    (displayedBarcodeYandex pd.product_barcode)

/-- The layout variant selected from the marketplace field. -/
inductive Variant where
  | uzum
  | yandex
deriving DecidableEq

/-- Sticker content rendered for a product under a layout variant
(src/server.js lines 276-281). -/
def stickerContentServer : Variant → ProductData → StickerContent
  | Variant.uzum, pd => uzumStickerContent pd
  | Variant.yandex, pd => yandexStickerContent pd

/-! ## Documents and pages -/

/-- One sticker page inside the merged document: the content drawn on it,
together with the identity of the render call that produced the page this one
was copied from. -/
structure SPage (α : Type) where
  renderId : Nat
  content : α
deriving DecidableEq

/-- A page of the merged output document: either a page copied from the
marketplace document (content abstracted to one byte) or a copied sticker
page. -/
inductive Page (α : Type) where
  | market (content : Nat)
  | sticker (page : SPage α)
deriving DecidableEq

/-- The sticker pages of a merged document, in order. -/
def stickersOf {α : Type} : List (Page α) → List (SPage α)
  | [] => []
  | Page.market _ :: rest => stickersOf rest
  | Page.sticker p :: rest => p :: stickersOf rest

/-! ## Marketplace label decoding and parsing -/

/-- The characters of the data-URI marker stripped by base64ToBuffer. -/
def pdfDataUriMarker : List Char := "data:application/pdf;base64,".data

/-- src/server.js base64ToBuffer lines 68-71, first step: remove the leading
data-URI marker when present (the anchored replace). -/
def stripDataUriMarker (s : String) : String :=
  if s.data.take pdfDataUriMarker.length = pdfDataUriMarker then
    String.mk (s.data.drop pdfDataUriMarker.length)
  else s

/-- Value of one base64 alphabet character, none for anything else. -/
def base64Val (c : Char) : Option Nat :=
  if 65 ≤ c.toNat ∧ c.toNat ≤ 90 then some (c.toNat - 65)
  else if 97 ≤ c.toNat ∧ c.toNat ≤ 122 then some (c.toNat - 71)
  else if 48 ≤ c.toNat ∧ c.toNat ≤ 57 then some (c.toNat + 4)
  else if c.toNat = 43 then some 62
  else if c.toNat = 47 then some 63
  else none

/-- Groups of four 6-bit values decoded to three bytes; a trailing group of
two or three values yields one or two bytes. -/
def base64Groups : List Nat → List Nat
  | a :: b :: c :: d :: rest =>
      (a * 4 + b / 16) :: ((b % 16) * 16 + c / 4) ::
        ((c % 4) * 64 + d) :: base64Groups rest
  | [a, b] => [a * 4 + b / 16]
  | [a, b, c] => [a * 4 + b / 16, (b % 16) * 16 + c / 4]
  | _ => []

/-- Modelled from the spec: lenient base64 decoding of a string by the Node
runtime (an external facility): characters outside the alphabet are ignored
and the 6-bit values are assembled into bytes. -/
def base64Decode (s : String) : List Nat :=
  base64Groups (s.data.filterMap base64Val)

/-- src/server.js base64ToBuffer (lines 68-71). -/
def base64ToBuffer (s : String) : List Nat :=
  base64Decode (stripDataUriMarker s)

/-- A JavaScript value supplied as the marketplace label: a string, a byte
buffer, or anything else. -/
inductive JsValue where
  | str (s : String)
  | buf (b : List Nat)
  | other
deriving DecidableEq

/-- src/server.js lines 226-233: the byte buffer obtained from the supplied
label, or none when the value is neither a string nor a buffer (the branch
that throws Invalid marketplace label format). -/
def marketplaceBuffer : JsValue → Option (List Nat)
  | JsValue.str s => some (base64ToBuffer s)
  | JsValue.buf b => some b
  | JsValue.other => none

/-- The four magic bytes opening a PDF file. -/
def pdfMagic : List Nat := [37, 80, 68, 70]

/-- Modelled from the spec: parsing of a PDF byte buffer by the external
pdf-lib library (a black box per the spec). A valid document is the PDF magic
followed by the page contents, one byte per page; anything else fails to
parse. -/
def parsePdf (bytes : List Nat) : Option (List Nat) :=
  if bytes.take 4 = pdfMagic then some (bytes.drop 4) else none

/-! ## Marketplace selection (src/server.js lines 254-258) -/

/-- ASCII lowercase conversion of one character, matching the JavaScript
toLowerCase conversion on the letters relevant here: the codes 65 to 90 are
shifted up by 32, everything else is unchanged. -/
def jsLowerChar (c : Char) : Char :=
  if 65 ≤ c.toNat ∧ c.toNat ≤ 90 then Char.ofNat (c.toNat + 32) else c

/-- JavaScript toLowerCase on a string. -/
def jsToLower (s : String) : String :=
  String.mk (s.data.map jsLowerChar)

/-- Whitespace removed from both ends of a character list. -/
def trimChars (l : List Char) : List Char :=
  ((l.dropWhile isJsSpace).reverse.dropWhile isJsSpace).reverse

/-- JavaScript String trim. -/
def jsTrim (s : String) : String :=
  String.mk (trimChars s.data)

/-- src/server.js lines 254-258: the marketplace field is lowercased then
trimmed; uzum and yandex select their layout variant, anything else throws. -/
def selectMarketplace (m : Option String) : Option Variant :=
  if jsTrim (jsToLower (m.getD "")) = "uzum" then some Variant.uzum
  else if jsTrim (jsToLower (m.getD "")) = "yandex" then some Variant.yandex
  else none

/-! ## Product list preparation -/

/-- src/server.js lines 247-252: fallback to the legacy single-product shape
when the products array is missing or empty. -/
def fallbackProducts (o : OrderJs) : List ProductJs :=
  match o.product_barcode with
  | some pb =>
      if pb = "" then []
      else [{ product_barcode := some pb, product_code := o.product_code,
              quantity := none }]
  | none => []

/-- src/server.js lines 244-252: the list of products to process. -/
def productsToProcess (o : OrderJs) : List ProductJs :=
  match o.products with
  | some ps => if ps = [] then fallbackProducts o else ps
  | none => fallbackProducts o

/-- src/unnamed/part_002 lines 203-210: same fallback, with an explicit
default quantity of 2 on the synthesized product. -/
def fallbackProducts2 (o : OrderJs) : List ProductJs :=
  match o.product_barcode with
  | some pb =>
      if pb = "" then []
      else [{ product_barcode := some pb, product_code := o.product_code,
              quantity := some 2 }]
  | none => []

/-- src/unnamed/part_002 lines 200-210: the list of products to process. -/
def productsToProcess2 (o : OrderJs) : List ProductJs :=
  match o.products with
  | some ps => if ps = [] then fallbackProducts2 o else ps
  | none => fallbackProducts2 o

/-- src/unnamed/part_002 line 218: the declared quantity when positive,
otherwise 2 (also 2 when the field is absent). -/
def quantityOf (p : ProductJs) : Nat :=
  match p.quantity with
  | some q => if 0 < q then q.toNat else 2
  | none => 2

/-! ## Quantity-aware assembler (src/unnamed/part_002 lines 179-236) -/

/-- Visual content of one sticker page rendered by createStickersPagePdf in
src/unnamed/part_002 (lines 82-177): QR code with brand text on the left,
sku text, barcode bars and the printed number on the right. -/
structure Content2 where
  qrPayload : String
  sku : String
  bars : List Nat
  displayed : String
deriving DecidableEq

/-- Content of a part_002 sticker as a function of the product data. -/
def stickerContent2 (pd : ProductData) : Content2 :=
  { qrPayload := jsOr pd.product_barcode "2000000099064"
    sku := jsOr pd.product_code "SKU-TEST-001"
    bars := barsFor pd.product_barcode
    displayed := displayedBarcodeYandex pd.product_barcode }

/-- The copies produced for one product: the inner loop of part_002 lines
221-224 calls createStickersPagePdf once per copy, so the pages carry
consecutive render identities. -/
def stickerCopies (oid : String) (p : ProductJs) (ctr q : Nat) :
    List (SPage Content2) :=
  (List.range q).map
    (fun j => ⟨ctr + j, stickerContent2 ⟨oid, p.product_barcode, p.product_code⟩⟩)

/-- Stage 1 of part_002 createCompleteLabelPack (lines 196-225): collect the
sticker pages of all products, quantityOf copies each, threading the render
counter. -/
def stickerRendersPart002 (oid : String) :
    List ProductJs → Nat → List (SPage Content2) × Nat
  | [], ctr => ([], ctr)
  | p :: rest, ctr =>
      let q := quantityOf p
      let done := stickerRendersPart002 oid rest (ctr + q)
      (stickerCopies oid p ctr q ++ done.1, done.2)

/-- The same sticker pages grouped per product, in product order. -/
def part002Segments (oid : String) :
    List ProductJs → Nat → List (List (SPage Content2))
  | [], _ => []
  | p :: rest, ctr =>
      stickerCopies oid p ctr (quantityOf p) ::
        part002Segments oid rest (ctr + quantityOf p)

/-- src/unnamed/part_002 createCompleteLabelPack (lines 179-236): obtain the
label buffer, parse it, copy its pages in order, then append all collected
sticker pages in order. -/
def createCompleteLabelPackPart002 (o : OrderJs) (label : JsValue) :
    Except String (List (Page Content2)) :=
  match marketplaceBuffer label with
  | none => Except.error "Invalid marketplace label format"
  | some buf =>
      match parsePdf buf with
      | none => Except.error "Failed to parse PDF document"
      | some mpages =>
          Except.ok (mpages.map Page.market ++
            ((stickerRendersPart002 o.order_id (productsToProcess2 o) 0).1).map
              Page.sticker)

/-! ## Fixed-two-copy assembler (src/server.js lines 220-294) -/

/-- The product loop of src/server.js createCompleteLabelPack lines 263-289:
one render per product, then two copies of that same rendered page, threading
the render counter. -/
def stickerLoopServer (v : Variant) (oid : String) :
    List ProductJs → Nat → List (SPage StickerContent) × Nat
  | [], ctr => ([], ctr)
  | p :: rest, ctr =>
      let pg : SPage StickerContent :=
        ⟨ctr, stickerContentServer v ⟨oid, p.product_barcode, p.product_code⟩⟩
      let done := stickerLoopServer v oid rest (ctr + 1)
      (pg :: pg :: done.1, done.2)

/-- The same pages grouped per product. -/
def serverSegments (v : Variant) (oid : String) :
    List ProductJs → Nat → List (List (SPage StickerContent))
  | [], _ => []
  | p :: rest, ctr =>
      [⟨ctr, stickerContentServer v ⟨oid, p.product_barcode, p.product_code⟩⟩,
       ⟨ctr, stickerContentServer v ⟨oid, p.product_barcode, p.product_code⟩⟩] ::
        serverSegments v oid rest (ctr + 1)

/-- src/server.js createCompleteLabelPack (lines 220-294): the result paired
with the number of sticker render calls performed before returning. The label
type check and the document parse precede the marketplace check, which
precedes all rendering. -/
def createCompleteLabelPackServer (o : OrderJs) (label : JsValue) :
    Except String (List (Page StickerContent)) × Nat :=
  match marketplaceBuffer label with
  | none => (Except.error "Invalid marketplace label format", 0)
  | some buf =>
      match parsePdf buf with
      | none => (Except.error "Failed to parse PDF document", 0)
      | some mpages =>
          match selectMarketplace o.marketplace with
          | none =>
              (Except.error ("Invalid marketplace: " ++ o.marketplace.getD "" ++
                ". Must be uzum or yandex"), 0)
          | some v =>
              let done := stickerLoopServer v o.order_id (productsToProcess o) 0
              (Except.ok (mpages.map Page.market ++ done.1.map Page.sticker),
                done.2)

/-! ## Concrete inputs used by witnesses and counterexamples -/

/-- A concrete order with a single product of quantity 2. -/
def orderOneProduct : OrderJs :=
  { order_id := "A1", marketplace := some "yandex",
    products := some [{ product_barcode := some "5901234123457",
                        product_code := some "SKU-1", quantity := some 2 }],
    product_barcode := none, product_code := none }

/-- A concrete two-product list with quantities 3 and default. -/
def productsTwo : List ProductJs :=
  [{ product_barcode := some "5901234123457", product_code := some "SKU-1",
     quantity := some 3 },
   { product_barcode := some "bad!!", product_code := some "SKU-2",
     quantity := none }]

/-- A concrete order with two products of quantities 3 and default. -/
def orderTwoProducts : OrderJs :=
  { order_id := "A2", marketplace := some "uzum",
    products := some productsTwo,
    product_barcode := none, product_code := none }

/-- A concrete one-page marketplace document (PDF magic plus one content
byte). -/
def labelOnePage : JsValue := JsValue.buf (pdfMagic ++ [0])

/-- A concrete two-page marketplace document. -/
def labelTwoPages : JsValue := JsValue.buf (pdfMagic ++ [7, 9])

/-! ## Geometry of the rotated portrait layout (src/unnamed/part_000,
createStickerPage lines 85-152) -/

/-- Points per millimeter (2.83465), src/unnamed/part_000 line 22. -/
def mm2pt : ℚ := 283465 / 100000

/-- part_000 page width: the page is built portrait, 40 mm wide (line 27). -/
def pageWidthP0 : ℚ := 40 * mm2pt

/-- part_000 page height: 58 mm (line 28). -/
def pageHeightP0 : ℚ := 58 * mm2pt

/-- part_000 QR size constant (line 30). -/
def qrSizeP0 : ℚ := 40

/-- part_000 barcode width constant (line 31). -/
def barcodeWidthP0 : ℚ := 70

/-- part_000 barcode height constant (line 32). -/
def barcodeHeightP0 : ℚ := 30

/-- part_000 sku font size constant (line 33). -/
def skuFontSizeP0 : ℚ := 8

/-- part_000 padding constant (line 35). -/
def paddingP0 : ℚ := 4

/-- An axis-aligned box given by its coordinate bounds. -/
structure Box where
  lox : ℚ
  hix : ℚ
  loy : ℚ
  hiy : ℚ
deriving DecidableEq

/-- The box spanned by two opposite corner points. -/
def spanBox (p q : ℚ × ℚ) : Box :=
  ⟨min p.1 q.1, max p.1 q.1, min p.2 q.2, max p.2 q.2⟩

/-- Box containment. -/
def subBox (a b : Box) : Prop :=
  b.lox ≤ a.lox ∧ a.hix ≤ b.hix ∧ b.loy ≤ a.loy ∧ a.hiy ≤ b.hiy

/-- Point membership in a box. -/
def inBox (b : Box) (p : ℚ × ℚ) : Prop :=
  b.lox ≤ p.1 ∧ p.1 ≤ b.hix ∧ b.loy ≤ p.2 ∧ p.2 ≤ b.hiy

/-- Strict point membership in the interior of a box. -/
def inBoxInterior (b : Box) (p : ℚ × ℚ) : Prop :=
  b.lox < p.1 ∧ p.1 < b.hix ∧ b.loy < p.2 ∧ p.2 < b.hiy

/-- The pdfkit transform translate-to-pivot then rotate by 90 degrees in the
top-down coordinate frame: a local point (u, v) lands at (cx - v, cy + u). -/
def rotate90At (cx cy : ℚ) (p : ℚ × ℚ) : ℚ × ℚ :=
  (cx - p.2, cy + p.1)

/-- The pdfkit transform translate-to-pivot, rotate by 180 degrees, then
translate by the offset (tx, ty): a local point (u, v) lands at
(cx - (u + tx), cy - (v + ty)). -/
def rotate180At (cx cy tx ty : ℚ) (p : ℚ × ℚ) : ℚ × ℚ :=
  (cx - (p.1 + tx), cy - (p.2 + ty))

/-- part_000 line 100: QR abscissa. -/
def qrXP0 : ℚ := paddingP0

/-- part_000 line 112: left edge of the sku text band. -/
def textXP0 : ℚ := qrXP0 + qrSizeP0 + paddingP0 * 2

/-- part_000 line 113: declared width of the sku text band (negative on this
page size, the two corner abscissas being textXP0 and textXP0 plus this). -/
def textWidthP0 : ℚ := pageWidthP0 - textXP0 - barcodeWidthP0 - paddingP0 * 2

/-- part_000 line 114: sku line height. -/
def lineHP0 : ℚ := skuFontSizeP0 * (12 / 10)

/-- part_000 line 117: sku pivot abscissa. -/
def txtCxP0 : ℚ := textXP0 + textWidthP0 / 2

/-- part_000 line 118: sku pivot ordinate. -/
def txtCyP0 : ℚ := pageHeightP0 / 2

/-- part_000 line 127: barcode abscissa. -/
def bcXP0 : ℚ := pageWidthP0 - barcodeWidthP0 - paddingP0

/-- part_000 line 128: barcode ordinate. -/
def bcYP0 : ℚ := (pageHeightP0 - barcodeHeightP0) / 2

/-- part_000 line 130: barcode pivot abscissa. -/
def bcCxP0 : ℚ := bcXP0 + barcodeWidthP0 / 2

/-- part_000 line 131: barcode pivot ordinate. -/
def bcCyP0 : ℚ := bcYP0 + barcodeHeightP0 / 2

/-- Region covered by the sku text after translate to the text pivot and
rotate by 90 degrees (part_000 lines 116-124): the text block is laid out
locally from (-textWidth/2, -lineH/2) with extents textWidth by lineH. -/
def skuDrawnRegion : Box :=
  spanBox (rotate90At txtCxP0 txtCyP0 (-textWidthP0 / 2, -lineHP0 / 2))
    (rotate90At txtCxP0 txtCyP0
      (-textWidthP0 / 2 + textWidthP0, -lineHP0 / 2 + lineHP0))

/-- Region covered by the barcode image after the three-step transform of
part_000 lines 133-141: translate to the barcode center, rotate 180, then
translate by minus half the extents, drawing locally from (0, 0). -/
def barcodeDrawnRegion : Box :=
  spanBox
    (rotate180At bcCxP0 bcCyP0 (-(barcodeWidthP0 / 2)) (-(barcodeHeightP0 / 2))
      (0, 0))
    (rotate180At bcCxP0 bcCyP0 (-(barcodeWidthP0 / 2)) (-(barcodeHeightP0 / 2))
      (barcodeWidthP0, barcodeHeightP0))

/-- The canvas of the portrait page. -/
def canvasBoxP0 : Box := ⟨0, pageWidthP0, 0, pageHeightP0⟩

/-- The band declared for the sku text: between its two corner abscissas
(the declared width being negative), full page height. -/
def skuDeclaredBox : Box :=
  spanBox (textXP0, 0) (textXP0 + textWidthP0, pageHeightP0)

/-- The box declared for the barcode image (part_000 lines 127-131). -/
def barcodeDeclaredBox : Box :=
  spanBox (bcXP0, bcYP0) (bcXP0 + barcodeWidthP0, bcYP0 + barcodeHeightP0)

/-! ## Orientation Adapter (rotatePageToLandscape) -/

/-- Target landscape width of rotatePageToLandscape: 58 mm. -/
def rotTargetW : ℚ := 58 * mm2pt

/-- Target landscape height of rotatePageToLandscape: 40 mm. -/
def rotTargetH : ℚ := 40 * mm2pt

/-- The target landscape page of rotatePageToLandscape. -/
def rotTargetBox : Box := ⟨0, rotTargetW, 0, rotTargetH⟩

/-- Region covered by a pdf-lib drawPage call without a rotate option: the
source is scaled to the requested extents and placed at (x, y). -/
def drawPageNoRotateRegion (x y w h : ℚ) : Box :=
  spanBox (x, y) (x + w, y + h)

/-- src/unnamed/part_004 rotatePageToLandscape (lines 154-170): the source
portrait page is drawn at x equal to the full target width, with the source
width and height swapped as the requested extents, and with no rotate
option. -/
def rotatedDrawnRegionPart004 : Box :=
  drawPageNoRotateRegion rotTargetW 0 pageHeightP0 pageWidthP0

/-- src/unnamed/part_000 rotatePageToLandscape (lines 157-182): the rotate
option names the identifier PDFLibDegrees, which is neither imported from
pdf-lib (line 6 imports only PDFDocument) nor defined anywhere in the file,
so the call raises a reference error before producing any page. -/
def rotatePageToLandscapePart000 : Except String Unit :=
  Except.error "ReferenceError: PDFLibDegrees is not defined"

/-! ## Helper lemmas for the barcode pipeline -/

theorem isEmpty_false_of_length_pos (l : List Char) (h : 0 < l.length) :
    l.isEmpty = false := by
  cases l with
  | nil => simp at h
  | cons a t => rfl

theorem isJsSpace_eq_false_of_digit (c : Char) (h : isDigitChar c = true) :
    isJsSpace c = false := by
  simp only [isDigitChar, Bool.and_eq_true, decide_eq_true_eq] at h
  simp only [isJsSpace, Bool.or_eq_false_iff, beq_eq_false_iff_ne, ne_eq]
  omega

theorem stripJsSpaces_of_digits (s : String)
    (h : s.data.all isDigitChar = true) :
    stripJsSpaces s = s := by
  unfold stripJsSpaces
  rw [List.all_eq_true] at h
  have hfil : s.data.filter (fun c => !isJsSpace c) = s.data := by
    apply List.filter_eq_self.mpr
    intro a ha
    simp [isJsSpace_eq_false_of_digit a (h a ha)]
  rw [hfil]

theorem normalizeAux_valid (b : String) :
    (normalizeAux b).data.length = 12 ∧
    allDigitsB (normalizeAux b) = true := by
  unfold normalizeAux
  split_ifs with h1 h2
  · obtain ⟨h13, hdig⟩ := h1
    have htk : (b.data.take 12).length = 12 := by
      rw [List.length_take, h13]
      decide
    simp only [allDigitsB, Bool.and_eq_true, List.all_eq_true] at hdig ⊢
    refine ⟨htk, ?_, ?_⟩
    · simp only [Bool.not_eq_true']
      exact isEmpty_false_of_length_pos _ (by omega)
    · intro a ha
      exact hdig.2 a (List.take_subset _ _ ha)
  · exact ⟨by decide, by decide⟩
  · push_neg at h2
    obtain ⟨hge, hle, hdig⟩ := h2
    have h13 : b.data.length ≠ 13 := fun hcon => absurd ⟨hcon, hdig⟩ h1
    exact ⟨by omega, hdig⟩

theorem normalizeBarcodeData_valid (d : Option String) :
    (normalizeBarcodeData d).data.length = 12 ∧
    allDigitsB (normalizeBarcodeData d) = true :=
  normalizeAux_valid (stripJsSpaces (d.getD ""))

theorem generateBarcode_eq_ok (d : Option String) :
    generateBarcode d = Except.ok (barsFor d) ∧
    barsFor d =
      digitsOf (normalizeBarcodeData d) ++
        [ean13Checksum (digitsOf (normalizeBarcodeData d))] := by
  obtain ⟨hlen, hdig⟩ := normalizeBarcodeData_valid d
  have henc : jsBarcodeEan13 (normalizeBarcodeData d) =
      Except.ok (digitsOf (normalizeBarcodeData d) ++
        [ean13Checksum (digitsOf (normalizeBarcodeData d))]) := by
    unfold jsBarcodeEan13
    rw [if_pos ⟨hlen, hdig⟩]
  have h1 : generateBarcode d =
      Except.ok (digitsOf (normalizeBarcodeData d) ++
        [ean13Checksum (digitsOf (normalizeBarcodeData d))]) := by
    unfold generateBarcode
    rw [henc]
  have h2 : barsFor d =
      digitsOf (normalizeBarcodeData d) ++
        [ean13Checksum (digitsOf (normalizeBarcodeData d))] := by
    unfold barsFor
    rw [h1]
  exact ⟨by rw [h1, h2], h2⟩

/-! ## C1 -/

/-- Claim C1: for every 13-digit numeric input to generateBarcode the payload
handed to the EAN-13 encoder is exactly the first 12 digits (the encoder
recomputes the check digit, so the original 13th digit is never part of the
encoded payload), and the call completes without an error for every 12- or
13-digit numeric input. -/
theorem barcode_truncation_c1 (s : String)
    (hd : s.data.all isDigitChar = true)
    (hl : s.data.length = 12 ∨ s.data.length = 13) :
    (s.data.length = 13 →
      normalizeBarcodeData (some s) = String.mk (s.data.take 12) ∧
      generateBarcode (some s) =
        Except.ok (digitsOf (String.mk (s.data.take 12)) ++
          [ean13Checksum (digitsOf (String.mk (s.data.take 12)))])) ∧
    ∃ bars, generateBarcode (some s) = Except.ok bars := by
  have hstrip : stripJsSpaces s = s := stripJsSpaces_of_digits s hd
  have hne : s.data.isEmpty = false := by
    apply isEmpty_false_of_length_pos
    rcases hl with h | h <;> omega
  have hall : allDigitsB s = true := by
    simp [allDigitsB, hne, hd]
  constructor
  · intro h13
    have hnorm : normalizeBarcodeData (some s) = String.mk (s.data.take 12) := by
      unfold normalizeBarcodeData
      simp only [Option.getD_some]
      rw [hstrip]
      unfold normalizeAux
      rw [if_pos ⟨h13, hall⟩]
    refine ⟨hnorm, ?_⟩
    obtain ⟨hok, hbars⟩ := generateBarcode_eq_ok (some s)
    rw [hok, hbars, hnorm]
  · exact ⟨barsFor (some s), (generateBarcode_eq_ok (some s)).1⟩

/-- Witness for C1 at the concrete 13-digit input 5901234123450 (a value whose
13th digit 0 is not the correct check digit 7 of its first 12 digits). -/
theorem barcode_truncation_c1_witness :
    normalizeBarcodeData (some "5901234123450") =
      String.mk (("5901234123450" : String).data.take 12) ∧
    ∃ bars, generateBarcode (some "5901234123450") = Except.ok bars := by
  have h := barcode_truncation_c1 "5901234123450" (by decide) (by decide)
  exact ⟨(h.1 (by decide)).1, h.2⟩

/-! ## C4 -/

/-- Claim C4 counterexample: the input made of 13 digits followed by a space
is not a string of 12 or 13 numeric digits, yet the encoder payload is its
whitespace-stripped truncation, not the documented placeholder 123456789012,
refuting the claim as stated. -/
theorem placeholder_claim_counterexample :
    ¬ (allDigitsB "5901234123457 " = true ∧
        (("5901234123457 " : String).data.length = 12 ∨
         ("5901234123457 " : String).data.length = 13)) ∧
    normalizeBarcodeData (some "5901234123457 ") = "590123412345" ∧
    normalizeBarcodeData (some "5901234123457 ") ≠ "123456789012" := by
  refine ⟨?_, by decide, by decide⟩
  intro h
  exact absurd h.1 (by decide)

/-- Claim C4 (amended): for every input whose whitespace-stripped form is not
12 or 13 numeric digits, generateBarcode substitutes the fixed 12-digit
placeholder 123456789012 as the encoder payload and returns an image
successfully, never raising an error. -/
theorem placeholder_after_whitespace_strip (s : String)
    (h : ¬ (allDigitsB (stripJsSpaces s) = true ∧
        ((stripJsSpaces s).data.length = 12 ∨
         (stripJsSpaces s).data.length = 13))) :
    normalizeBarcodeData (some s) = "123456789012" ∧
    ∃ bars, generateBarcode (some s) = Except.ok bars := by
  constructor
  · unfold normalizeBarcodeData
    simp only [Option.getD_some]
    set b := stripJsSpaces s with hb
    unfold normalizeAux
    push_neg at h
    by_cases hdig : allDigitsB b = true
    · have hlen := h hdig
      rw [if_neg, if_pos]
      · omega
      · intro hcon
        exact hlen.2 hcon.1
    · rw [if_neg, if_pos]
      · right; right; exact hdig
      · intro hcon
        exact hdig hcon.2
  · exact ⟨barsFor (some s), (generateBarcode_eq_ok (some s)).1⟩

/-- Witness for the amended C4 at the concrete invalid input. -/
theorem placeholder_after_whitespace_strip_witness :
    normalizeBarcodeData (some "bad!!") = "123456789012" ∧
    ∃ bars, generateBarcode (some "bad!!") = Except.ok bars :=
  placeholder_after_whitespace_strip "bad!!" (by decide)

/-! ## C10 -/

/-- Claim C10: in the barcode-only (yandex) sticker layout the printed
human-readable number is the original product barcode whenever it is numeric
with length at least 12 (including full 13-digit inputs, whose printed 13th
digit can differ from the check digit actually encoded in the bars after the
13-to-12 truncation, as the concrete value 5901234123450 shows: bars end in 7,
print ends in 0), and otherwise it is the fixed 13-digit text 1234567890128,
which differs from the 12-digit encoder fallback payload 123456789012. -/
theorem yandex_displayed_barcode_c10 (s : String)
    (hd : s.data.all isDigitChar = true)
    (hl : 12 ≤ s.data.length) :
    displayedBarcodeYandex (some s) = s ∧
    displayedBarcodeYandex (some "bad!!") = "1234567890128" ∧
    displayedBarcodeYandex none = "1234567890128" ∧
    ("1234567890128" : String) ≠ "123456789012" ∧
    normalizeBarcodeData (some "bad!!") = "123456789012" ∧
    generateBarcode (some "5901234123450") =
      Except.ok [5, 9, 0, 1, 2, 3, 4, 1, 2, 3, 4, 5, 7] ∧
    displayedBarcodeYandex (some "5901234123450") = "5901234123450" := by
  refine ⟨?_, by decide, by decide, by decide, by decide, ?_, by decide⟩
  · simp only [displayedBarcodeYandex]
    rw [if_pos]
    refine ⟨?_, hl, hd⟩
    intro hnil
    rw [hnil] at hl
    simp at hl
  · obtain ⟨hok, hbars⟩ := generateBarcode_eq_ok (some "5901234123450")
    rw [hok, hbars]
    exact congrArg Except.ok (by decide)

/-- Witness for C10 at the concrete 13-digit numeric input. -/
theorem yandex_displayed_barcode_c10_witness :
    displayedBarcodeYandex (some "5901234123457") = "5901234123457" ∧
    displayedBarcodeYandex (some "bad!!") = "1234567890128" ∧
    displayedBarcodeYandex none = "1234567890128" ∧
    ("1234567890128" : String) ≠ "123456789012" ∧
    normalizeBarcodeData (some "bad!!") = "123456789012" ∧
    generateBarcode (some "5901234123450") =
      Except.ok [5, 9, 0, 1, 2, 3, 4, 1, 2, 3, 4, 5, 7] ∧
    displayedBarcodeYandex (some "5901234123450") = "5901234123450" :=
  yandex_displayed_barcode_c10 "5901234123457" (by decide) (by decide)

/-! ## Assembler lemmas -/

theorem stickerRendersPart002_fst (oid : String) (ps : List ProductJs)
    (ctr : Nat) :
    (stickerRendersPart002 oid ps ctr).1 =
      (part002Segments oid ps ctr).flatten := by
  induction ps generalizing ctr with
  | nil => rfl
  | cons p rest ih =>
      simp [stickerRendersPart002, part002Segments, ih]

theorem part002Segments_length (oid : String) (ps : List ProductJs)
    (ctr : Nat) :
    (part002Segments oid ps ctr).length = ps.length := by
  induction ps generalizing ctr with
  | nil => rfl
  | cons p rest ih => simp [part002Segments, ih]

theorem stickerCopies_length (oid : String) (p : ProductJs) (ctr q : Nat) :
    (stickerCopies oid p ctr q).length = q := by
  simp [stickerCopies]

theorem stickerCopies_content (oid : String) (p : ProductJs) (ctr q : Nat)
    (pg : SPage Content2) (h : pg ∈ stickerCopies oid p ctr q) :
    pg.content = stickerContent2 ⟨oid, p.product_barcode, p.product_code⟩ := by
  simp only [stickerCopies, List.mem_map] at h
  obtain ⟨j, _, rfl⟩ := h
  rfl

theorem part002Segments_flatten_length (oid : String) (ps : List ProductJs)
    (ctr : Nat) :
    (part002Segments oid ps ctr).flatten.length = (ps.map quantityOf).sum := by
  induction ps generalizing ctr with
  | nil => rfl
  | cons p rest ih =>
      simp [part002Segments, stickerCopies_length, ih]

theorem part002Segments_getD (oid : String) (ps : List ProductJs)
    (ctr i : Nat) (hi : i < ps.length) :
    ∃ c, (part002Segments oid ps ctr).getD i [] =
      stickerCopies oid (ps.getD i dfltProduct) c
        (quantityOf (ps.getD i dfltProduct)) := by
  induction ps generalizing ctr i with
  | nil => simp at hi
  | cons p rest ih =>
      cases i with
      | zero => exact ⟨ctr, rfl⟩
      | succ n =>
          have hn : n < rest.length := by simpa using hi
          simpa [part002Segments] using ih (ctr + quantityOf p) n hn

theorem part002Segments_mem (oid : String) (ps : List ProductJs) (ctr : Nat)
    (seg : List (SPage Content2)) (h : seg ∈ part002Segments oid ps ctr) :
    ∃ p c, seg = stickerCopies oid p c (quantityOf p) := by
  induction ps generalizing ctr with
  | nil => simp [part002Segments] at h
  | cons p rest ih =>
      simp only [part002Segments, List.mem_cons] at h
      rcases h with h | h
      · exact ⟨p, ctr, h⟩
      · exact ih (ctr + quantityOf p) h

theorem stickerLoopServer_fst (v : Variant) (oid : String)
    (ps : List ProductJs) (ctr : Nat) :
    (stickerLoopServer v oid ps ctr).1 =
      (serverSegments v oid ps ctr).flatten := by
  induction ps generalizing ctr with
  | nil => rfl
  | cons p rest ih =>
      simp [stickerLoopServer, serverSegments, ih]

theorem serverSegments_mem (v : Variant) (oid : String) (ps : List ProductJs)
    (ctr : Nat) (seg : List (SPage StickerContent))
    (h : seg ∈ serverSegments v oid ps ctr) :
    ∃ pg, seg = [pg, pg] := by
  induction ps generalizing ctr with
  | nil => simp [serverSegments] at h
  | cons p rest ih =>
      simp only [serverSegments, List.mem_cons] at h
      rcases h with h | h
      · exact ⟨_, h⟩
      · exact ih (ctr + 1) h

theorem createCompleteLabelPackPart002_ok (o : OrderJs) (label : JsValue)
    (buf mpages : List Nat)
    (hb : marketplaceBuffer label = some buf)
    (hp : parsePdf buf = some mpages) :
    createCompleteLabelPackPart002 o label =
      Except.ok (mpages.map Page.market ++
        (part002Segments o.order_id (productsToProcess2 o) 0).flatten.map
          Page.sticker) := by
  simp only [createCompleteLabelPackPart002, hb, hp, stickerRendersPart002_fst]

theorem createCompleteLabelPackServer_ok (o : OrderJs) (label : JsValue)
    (buf mpages : List Nat) (v : Variant)
    (hb : marketplaceBuffer label = some buf)
    (hp : parsePdf buf = some mpages)
    (hv : selectMarketplace o.marketplace = some v) :
    (createCompleteLabelPackServer o label).1 =
      Except.ok (mpages.map Page.market ++
        (serverSegments v o.order_id (productsToProcess o) 0).flatten.map
          Page.sticker) := by
  simp only [createCompleteLabelPackServer, hb, hp, hv, stickerLoopServer_fst]

/-! ## C2 -/

/-- Claim C2: for every order with a nonempty products list and every
parseable marketplace document, the assembled document has exactly the
marketplace page count plus the sum over the products of their quantity
(2 when absent or non-positive), and the marketplace pages occupy the leading
page range of the output. Proved for the quantity-aware assembler of
src/unnamed/part_002. -/
theorem labelPack_pageCount_c2 (o : OrderJs) (label : JsValue)
    (buf mpages : List Nat) (ps : List ProductJs)
    (hb : marketplaceBuffer label = some buf)
    (hp : parsePdf buf = some mpages)
    (hps : o.products = some ps)
    (hne : ps ≠ []) :
    ∃ pages, createCompleteLabelPackPart002 o label = Except.ok pages ∧
      pages.length = mpages.length + (ps.map quantityOf).sum ∧
      pages.take mpages.length = mpages.map Page.market := by
  have hprod : productsToProcess2 o = ps := by
    unfold productsToProcess2
    rw [hps]
    simp [hne]
  refine ⟨_, createCompleteLabelPackPart002_ok o label buf mpages hb hp, ?_, ?_⟩
  · rw [hprod, List.length_append, List.length_map, List.length_map,
      part002Segments_flatten_length]
  · have h := List.take_left
      (mpages.map (Page.market : Nat → Page Content2))
      ((part002Segments o.order_id (productsToProcess2 o) 0).flatten.map
        Page.sticker)
    rwa [List.length_map] at h

/-- Witness for C2: two products with quantities 3 and default 2, a two-page
marketplace document, output of length 2 + 5 with the marketplace pages
first. -/
theorem labelPack_pageCount_c2_witness :
    ∃ pages, createCompleteLabelPackPart002 orderTwoProducts labelTwoPages =
        Except.ok pages ∧
      pages.length = ([7, 9] : List Nat).length +
        (productsTwo.map quantityOf).sum ∧
      pages.take ([7, 9] : List Nat).length =
        ([7, 9] : List Nat).map Page.market :=
  labelPack_pageCount_c2 orderTwoProducts labelTwoPages (pdfMagic ++ [7, 9])
    [7, 9] productsTwo rfl (by decide) rfl (by decide)

/-! ## C3 -/

/-- Claim C3: in every document produced by the assembler the marketplace
pages come first in their original relative order, followed by one contiguous
segment of sticker copies per product, in product input order, with segment i
holding exactly the quantity of product i and carrying the sticker content of
product i. -/
theorem labelPack_pageOrder_c3 (o : OrderJs) (label : JsValue)
    (buf mpages : List Nat) (ps : List ProductJs)
    (hb : marketplaceBuffer label = some buf)
    (hp : parsePdf buf = some mpages)
    (hps : o.products = some ps)
    (hne : ps ≠ []) :
    ∃ segs : List (List (SPage Content2)),
      createCompleteLabelPackPart002 o label =
        Except.ok (mpages.map Page.market ++ segs.flatten.map Page.sticker) ∧
      segs.length = ps.length ∧
      ∀ i, i < ps.length →
        (segs.getD i []).length = quantityOf (ps.getD i dfltProduct) ∧
        ∀ pg ∈ segs.getD i [], pg.content =
          stickerContent2 ⟨o.order_id, (ps.getD i dfltProduct).product_barcode,
            (ps.getD i dfltProduct).product_code⟩ := by
  have hprod : productsToProcess2 o = ps := by
    unfold productsToProcess2
    rw [hps]
    simp [hne]
  refine ⟨part002Segments o.order_id ps 0, ?_, part002Segments_length _ _ _, ?_⟩
  · rw [createCompleteLabelPackPart002_ok o label buf mpages hb hp, hprod]
  · intro i hi
    obtain ⟨c, hc⟩ := part002Segments_getD o.order_id ps 0 i hi
    rw [hc]
    exact ⟨stickerCopies_length _ _ _ _,
      fun pg hpg => stickerCopies_content _ _ _ _ pg hpg⟩

/-- Witness for C3 at the two-product order. -/
theorem labelPack_pageOrder_c3_witness :
    ∃ segs : List (List (SPage Content2)),
      createCompleteLabelPackPart002 orderTwoProducts labelTwoPages =
        Except.ok (([7, 9] : List Nat).map Page.market ++
          segs.flatten.map Page.sticker) ∧
      segs.length = productsTwo.length ∧
      ∀ i, i < productsTwo.length →
        (segs.getD i []).length = quantityOf (productsTwo.getD i dfltProduct) ∧
        ∀ pg ∈ segs.getD i [], pg.content =
          stickerContent2 ⟨orderTwoProducts.order_id,
            (productsTwo.getD i dfltProduct).product_barcode,
            (productsTwo.getD i dfltProduct).product_code⟩ :=
  labelPack_pageOrder_c3 orderTwoProducts labelTwoPages (pdfMagic ++ [7, 9])
    [7, 9] productsTwo rfl (by decide) rfl (by decide)

/-! ## C5 -/

/-- Claim C5: when the supplied marketplace label is neither a string nor a
byte buffer, or its buffer does not parse as a PDF document, the assembler
fails with a descriptive error while zero sticker render calls have been
performed, and the error carries no partial document. -/
theorem invalid_label_fails_fast_c5 (o : OrderJs) (label : JsValue)
    (h : marketplaceBuffer label = none ∨
         ∃ b, marketplaceBuffer label = some b ∧ parsePdf b = none) :
    ∃ msg, createCompleteLabelPackServer o label = (Except.error msg, 0) := by
  rcases h with h | ⟨b, hb, hp⟩
  · exact ⟨"Invalid marketplace label format",
      by simp only [createCompleteLabelPackServer, h]⟩
  · exact ⟨"Failed to parse PDF document",
      by simp only [createCompleteLabelPackServer, hb, hp]⟩

/-- Witness for C5 at a label value that is neither string nor buffer. -/
theorem invalid_label_fails_fast_c5_witness :
    ∃ msg, createCompleteLabelPackServer orderOneProduct JsValue.other =
      (Except.error msg, 0) :=
  invalid_label_fails_fast_c5 orderOneProduct JsValue.other (Or.inl rfl)

/-! ## C6 -/

/-- Claim C6 counterexample: in the quantity-aware assembler the two copies
for the single product of this concrete order are pages produced by two
distinct render calls (render identities 0 and 1), not page copies of one and
the same rendered page, refuting the claim as stated. Their drawn content is
nevertheless equal. -/
theorem copies_single_render_counterexample_c6 :
    ∃ p1 p2 : SPage Content2,
      createCompleteLabelPackPart002 orderOneProduct labelOnePage =
        Except.ok [Page.market 0, Page.sticker p1, Page.sticker p2] ∧
      p1.content = p2.content ∧ p1 ≠ p2 := by
  refine ⟨⟨0, stickerContent2 ⟨"A1", some "5901234123457", some "SKU-1"⟩⟩,
    ⟨1, stickerContent2 ⟨"A1", some "5901234123457", some "SKU-1"⟩⟩,
    rfl, rfl, ?_⟩
  intro hcon
  exact absurd (congrArg SPage.renderId hcon) (by decide)

/-- Claim C6 (amended): every copy appended for a product carries the same
drawn content, because the sticker content is a function of the product data;
but in the quantity-aware assembler (part_002, part_005) each copy is a fresh
render, while the fixed-two-copy assembler of src/server.js reuses one and
the same rendered page for both copies of a product. -/
theorem copies_fresh_render_equal_content_c6 (o : OrderJs) (label : JsValue)
    (buf mpages : List Nat) (v : Variant)
    (hb : marketplaceBuffer label = some buf)
    (hp : parsePdf buf = some mpages)
    (hv : selectMarketplace o.marketplace = some v) :
    (createCompleteLabelPackPart002 o label =
        Except.ok (mpages.map Page.market ++
          (part002Segments o.order_id (productsToProcess2 o) 0).flatten.map
            Page.sticker) ∧
      ∀ seg ∈ part002Segments o.order_id (productsToProcess2 o) 0,
        ∀ p1 ∈ seg, ∀ p2 ∈ seg, p1.content = p2.content) ∧
    ((createCompleteLabelPackServer o label).1 =
        Except.ok (mpages.map Page.market ++
          (serverSegments v o.order_id (productsToProcess o) 0).flatten.map
            Page.sticker) ∧
      ∀ seg ∈ serverSegments v o.order_id (productsToProcess o) 0,
        ∀ p1 ∈ seg, ∀ p2 ∈ seg, p1 = p2) := by
  refine ⟨⟨createCompleteLabelPackPart002_ok o label buf mpages hb hp, ?_⟩,
    ⟨createCompleteLabelPackServer_ok o label buf mpages v hb hp hv, ?_⟩⟩
  · intro seg hseg p1 hp1 p2 hp2
    obtain ⟨p, c, rfl⟩ := part002Segments_mem _ _ _ seg hseg
    rw [stickerCopies_content _ _ _ _ p1 hp1, stickerCopies_content _ _ _ _ p2 hp2]
  · intro seg hseg p1 hp1 p2 hp2
    obtain ⟨pg, rfl⟩ := serverSegments_mem _ _ _ _ seg hseg
    have e1 : p1 = pg := by
      rcases List.mem_cons.mp hp1 with h | h
      · exact h
      · simpa using h
    have e2 : p2 = pg := by
      rcases List.mem_cons.mp hp2 with h | h
      · exact h
      · simpa using h
    rw [e1, e2]

/-- Witness for the amended C6 at the concrete one-product order. -/
theorem copies_fresh_render_equal_content_c6_witness :
    (createCompleteLabelPackPart002 orderOneProduct labelOnePage =
        Except.ok (([0] : List Nat).map Page.market ++
          (part002Segments "A1" (productsToProcess2 orderOneProduct) 0).flatten.map
            Page.sticker) ∧
      ∀ seg ∈ part002Segments "A1" (productsToProcess2 orderOneProduct) 0,
        ∀ p1 ∈ seg, ∀ p2 ∈ seg, p1.content = p2.content) ∧
    ((createCompleteLabelPackServer orderOneProduct labelOnePage).1 =
        Except.ok (([0] : List Nat).map Page.market ++
          (serverSegments Variant.yandex "A1"
            (productsToProcess orderOneProduct) 0).flatten.map Page.sticker) ∧
      ∀ seg ∈ serverSegments Variant.yandex "A1"
          (productsToProcess orderOneProduct) 0,
        ∀ p1 ∈ seg, ∀ p2 ∈ seg, p1 = p2) :=
  copies_fresh_render_equal_content_c6 orderOneProduct labelOnePage
    (pdfMagic ++ [0]) [0] Variant.yandex rfl (by decide) (by decide)

/-! ## C7 -/

/-- Claim C7: both elements placed with a rotation transform in the default
rotated layout of part_000 (the sku text at 90 degrees and the barcode at 180
degrees) cover a region that stays inside the declared bounding box of the
element and inside the canvas, with no negative coordinate; the barcode
region coincides exactly with its declared box. -/
theorem rotated_elements_within_bounds_c7 :
    subBox skuDrawnRegion skuDeclaredBox ∧
    subBox skuDrawnRegion canvasBoxP0 ∧
    barcodeDrawnRegion = barcodeDeclaredBox ∧
    subBox barcodeDrawnRegion canvasBoxP0 ∧
    0 ≤ skuDrawnRegion.lox ∧ 0 ≤ skuDrawnRegion.loy ∧
    0 ≤ barcodeDrawnRegion.lox ∧ 0 ≤ barcodeDrawnRegion.loy := by
  norm_num [skuDrawnRegion, barcodeDrawnRegion, skuDeclaredBox,
    barcodeDeclaredBox, canvasBoxP0, subBox, spanBox, rotate90At, rotate180At,
    txtCxP0, txtCyP0, textXP0, textWidthP0, lineHP0, bcXP0, bcYP0, bcCxP0,
    bcCyP0, qrXP0, pageWidthP0, pageHeightP0, mm2pt, qrSizeP0, barcodeWidthP0,
    barcodeHeightP0, skuFontSizeP0, paddingP0, min_def, max_def, Box.mk.injEq]

/-! ## C8 -/

/-- Claim C8 evaluation of the Orientation Adapter at its failing input: the
part_000 version raises a reference error (undefined identifier
PDFLibDegrees), and in the part_004 version, which omits the rotate option,
the drawn region starts at the right edge of the target page and reaches
twice the target width, so no interior point of the drawn source ever lies on
the target page - contradicting the claimed content-preserving 90-degree
placement. -/
theorem rotatePageToLandscape_broken_c8 :
    rotatePageToLandscapePart000 =
      Except.error "ReferenceError: PDFLibDegrees is not defined" ∧
    rotatedDrawnRegionPart004.lox = rotTargetBox.hix ∧
    rotatedDrawnRegionPart004.hix = 2 * rotTargetW ∧
    ∀ p : ℚ × ℚ, inBoxInterior rotatedDrawnRegionPart004 p →
      ¬ inBox rotTargetBox p := by
  have hlox : rotatedDrawnRegionPart004.lox = rotTargetW := by
    norm_num [rotatedDrawnRegionPart004, drawPageNoRotateRegion, spanBox,
      rotTargetW, pageHeightP0, pageWidthP0, mm2pt, min_def]
  refine ⟨rfl, ?_, ?_, ?_⟩
  · norm_num [rotatedDrawnRegionPart004, drawPageNoRotateRegion, spanBox,
      rotTargetW, rotTargetBox, pageHeightP0, pageWidthP0, mm2pt, min_def]
  · norm_num [rotatedDrawnRegionPart004, drawPageNoRotateRegion, spanBox,
      rotTargetW, pageHeightP0, pageWidthP0, mm2pt, max_def]
  · intro p hp hin
    simp only [inBoxInterior] at hp
    simp only [inBox, rotTargetBox] at hin
    rw [hlox] at hp
    have h1 : rotTargetW < p.1 := hp.1
    have h2 : p.1 ≤ rotTargetW := hin.2.1
    linarith

/-- Witness for C8 at the concrete interior point (200, 50) of the drawn
region. -/
theorem rotatePageToLandscape_broken_c8_witness :
    ¬ inBox rotTargetBox ((200 : ℚ), (50 : ℚ)) :=
  rotatePageToLandscape_broken_c8.2.2.2 (200, 50)
    (by norm_num [inBoxInterior, rotatedDrawnRegionPart004,
      drawPageNoRotateRegion, spanBox, rotTargetW, pageHeightP0, pageWidthP0,
      mm2pt, min_def, max_def])

/-! ## Marketplace selection lemmas -/

theorem isJsSpace_jsLowerChar (c : Char) :
    isJsSpace (jsLowerChar c) = isJsSpace c := by
  unfold jsLowerChar
  split_ifs with h
  · have hv : Nat.isValidChar (c.toNat + 32) := Or.inl (by omega)
    have ht : (Char.ofNat (c.toNat + 32)).toNat = c.toNat + 32 := by
      unfold Char.ofNat
      rw [dif_pos hv]
      rfl
    have h1 : isJsSpace (Char.ofNat (c.toNat + 32)) = false := by
      simp only [isJsSpace, ht, Bool.or_eq_false_iff, beq_eq_false_iff_ne, ne_eq]
      omega
    have h2 : isJsSpace c = false := by
      simp only [isJsSpace, Bool.or_eq_false_iff, beq_eq_false_iff_ne, ne_eq]
      omega
    rw [h1, h2]
  · rfl

theorem trimChars_map_lower (l : List Char) :
    trimChars (l.map jsLowerChar) = (trimChars l).map jsLowerChar := by
  have hp : isJsSpace ∘ jsLowerChar = isJsSpace :=
    funext fun c => isJsSpace_jsLowerChar c
  unfold trimChars
  rw [List.dropWhile_map, hp, ← List.map_reverse, List.dropWhile_map, hp,
    ← List.map_reverse]

theorem jsTrim_jsToLower (s : String) :
    jsTrim (jsToLower s) = jsToLower (jsTrim s) := by
  unfold jsTrim jsToLower
  exact congrArg String.mk (trimChars_map_lower s.data)

/-! ## C9 -/

/-- Claim C9: layout selection is a function of the trimmed, case-folded
marketplace string only - two marketplace values equal after trimming and
lowercasing select the same variant - and the two recognized values select
their single-code layouts (uzum draws exactly the QR code, yandex exactly the
1-D barcode). -/
theorem marketplace_selection_c9 (a b : String)
    (h : jsToLower (jsTrim a) = jsToLower (jsTrim b)) :
    selectMarketplace (some a) = selectMarketplace (some b) ∧
    selectMarketplace (some "uzum") = some Variant.uzum ∧
    selectMarketplace (some "yandex") = some Variant.yandex ∧
    (∀ pd : ProductData,
      codeKinds (stickerContentServer Variant.uzum pd) = [CodeKind.qr]) ∧
    (∀ pd : ProductData,
      codeKinds (stickerContentServer Variant.yandex pd) = [CodeKind.barcode]) := by
  have hcode : jsTrim (jsToLower a) = jsTrim (jsToLower b) := by
    rw [jsTrim_jsToLower, jsTrim_jsToLower, h]
  refine ⟨?_, by decide, by decide, fun pd => rfl, fun pd => rfl⟩
  unfold selectMarketplace
  simp only [Option.getD_some, hcode]

/-- Witness for C9 at two spellings of the same marketplace value. -/
theorem marketplace_selection_c9_witness :
    selectMarketplace (some " UZUM") = selectMarketplace (some "uzum  ") ∧
    selectMarketplace (some "uzum") = some Variant.uzum ∧
    selectMarketplace (some "yandex") = some Variant.yandex ∧
    (∀ pd : ProductData,
      codeKinds (stickerContentServer Variant.uzum pd) = [CodeKind.qr]) ∧
    (∀ pd : ProductData,
      codeKinds (stickerContentServer Variant.yandex pd) = [CodeKind.barcode]) :=
  marketplace_selection_c9 " UZUM" "uzum  " (by decide)
